import Mathlib

/-!
Verification of the turbodl download engine (src/turbodl/downloader.py,
src/turbodl/functions.py) against its natural-language specification.

The Python code is shallowly embedded:
* byte strings become `List Nat`;
* `ChunkBuffer` (downloader.py lines 33-113) becomes a structure with the
  same fields; the Python float `0.30 * available` ceiling is modelled
  exactly over `ℚ`;
* `TurboDL._get_chunk_ranges` (lines 237-283) becomes `get_chunk_ranges`;
  the `while` loop, which consumes at least one byte per iteration
  whenever `chunk_size ≥ 1`, is given `total_size` as fuel;
* `TurboDL._calculate_connections` (lines 192-235) is modelled over `ℝ`
  (Python floats idealised as reals);
* the control flow of `TurboDL.download` (lines 523-697) becomes a pure
  function from an abstract environment (probe result, space check,
  transfer outcome, hashes) to the final result, the state of the
  filesystem and an ordered trace of I/O events.
-/

set_option autoImplicit false

/-- State of `ChunkBuffer`, mirroring `ChunkBuffer.__init__` (downloader.py
lines 38-65): flush threshold `chunk_size`, memory ceiling
`max_buffer_size` (a Python float, modelled in `ℚ`), the staged bytes
`current_buffer` with their length counter `current_size`, and the
lifetime counter `total_buffered`. -/
structure ChunkBuffer where
  chunk_size : Nat
  max_buffer_size : ℚ
  current_buffer : List Nat
  current_size : Nat
  total_buffered : Nat
  deriving Repr, DecidableEq

/-- Constructor `ChunkBuffer.__init__` (downloader.py lines 38-65):
`max_buffer_size = min(max_buffer_bytes, virtual_memory().available * 0.30)`,
empty staging buffer, both counters zero.  `availMemory` is the available
virtual memory observed at creation time.  The Python defaults are
`chunk_size_bytes = 256 * 1024 ** 2` and `max_buffer_bytes = 1024 ** 3`. -/
def ChunkBuffer.init (chunk_size_bytes : Nat := 256 * 1024 ^ 2)
    (max_buffer_bytes : Nat := 1024 ^ 3) (availMemory : Nat := 0) : ChunkBuffer :=
  { chunk_size := chunk_size_bytes
    max_buffer_size := min (max_buffer_bytes : ℚ) ((availMemory : ℚ) * (30 / 100))
    current_buffer := []
    current_size := 0
    total_buffered := 0 }

/-- Method `ChunkBuffer.write` (downloader.py lines 67-113).  Returns the flush
block (if any) together with the successor state.  The three leading
guards refuse the data (returning `None` with the state untouched); on
acceptance the data is staged and, when a flush trigger fires, the staged
bytes are returned and the staging area is reset (`total_buffered` is NOT
reset). -/
def ChunkBuffer.write (b : ChunkBuffer) (data : List Nat)
    (total_file_size_bytes : Nat) : Option (List Nat) × ChunkBuffer :=
  if (b.current_size : ℚ) + data.length > b.max_buffer_size then (none, b)
  else if (b.total_buffered : ℚ) + data.length > b.max_buffer_size then (none, b)
  else if b.total_buffered + data.length > total_file_size_bytes then (none, b)
  else
    let buf := b.current_buffer ++ data
    let cs := b.current_size + data.length
    let tb := b.total_buffered + data.length
    if cs ≥ b.chunk_size ∨ tb ≥ total_file_size_bytes ∨ (cs : ℚ) ≥ b.max_buffer_size then
      (some buf, { b with current_buffer := [], current_size := 0, total_buffered := tb })
    else
      (none, { b with current_buffer := buf, current_size := cs, total_buffered := tb })

/-- Iterate `ChunkBuffer.write` over a list of incoming network reads,
collecting the flush blocks in order, as `download_worker`
(downloader.py lines 380-424) does inside its read loop. -/
def ChunkBuffer.writeAll (b : ChunkBuffer) (total : Nat) :
    List (List Nat) → List (List Nat) × ChunkBuffer
  | [] => ([], b)
  | d :: ds =>
    let r := b.write d total
    let rest := r.2.writeAll total ds
    (match r.1 with
     | none => rest.1
     | some c => c :: rest.1, rest.2)

/-- Total length of a list of byte strings. -/
def sumLens (ds : List (List Nat)) : Nat := (ds.map List.length).sum

/-- The refusal condition of `ChunkBuffer.write` as the specification
words it: accepting the slice would exceed the buffer's capacity, exceed
the remaining bytes owed for this transfer, or exceed the dynamic memory
ceiling (`max_buffer_size`, fixed at creation). -/
def specRefuses (b : ChunkBuffer) (data : List Nat) (total : Nat) : Prop :=
  (b.current_size : ℚ) + data.length > b.max_buffer_size
  ∨ (b.total_buffered : ℚ) + data.length > b.max_buffer_size
  ∨ b.total_buffered + data.length > total

instance (b : ChunkBuffer) (data : List Nat) (total : Nat) :
    Decidable (specRefuses b data total) := by
  unfold specRefuses; infer_instance

/-- Ceiling division `ceil(a / b)` on naturals, the exact value of Python's
`ceil(total_size / connections)`. -/
def ceil_div (a b : Nat) : Nat := (a + b - 1) / b

/-- The `while total_size > 0` loop of `TurboDL._get_chunk_ranges`
(downloader.py lines 263-283).  Each iteration consumes
`min(chunk_size, total)` bytes and emits the inclusive range
`(start, start + consumed - 1)`.  Since every iteration with
`chunk_size ≥ 1` consumes at least one byte, `total` itself serves as
fuel. -/
def buildRanges : Nat → Nat → Nat → Nat → List (Nat × Nat)
  | 0, _, _, _ => []
  | fuel + 1, chunkSize, start, total =>
    if total = 0 then []
    else
      let c := min chunkSize total
      (start, start + c - 1) :: buildRanges fuel chunkSize (start + c) (total - c)

/-- Method `TurboDL._get_chunk_ranges` (downloader.py lines 237-283) for an
integer `total_size` and a concrete connection count `maxConn` (the value
of `self._max_connections` after the `auto` resolution).  Note the Python
guard is `if total_size is None`, which an integer never satisfies, so an
integer input always proceeds to the loop. -/
def get_chunk_ranges (total_size maxConn : Nat) : List (Nat × Nat) :=
  buildRanges total_size (ceil_div total_size maxConn) 0 total_size

/-- Variant of `TurboDL._get_chunk_ranges` including its `total_size is None` guard
(downloader.py lines 251-253): `None` yields the degenerate `[(0, 0)]`,
any integer falls through to the loop. -/
def get_chunk_ranges_opt : Option Nat → Nat → List (Nat × Nat)
  | none, _ => [(0, 0)]
  | some t, n => get_chunk_ranges t n

/-- Predicate: `contiguousFrom s rs` holds when the inclusive ranges `rs` tile the
byte positions starting exactly at `s`: each range is nonempty, starts
where the previous one ended plus one, and the first starts at `s`. -/
def contiguousFrom : Nat → List (Nat × Nat) → Bool
  | _, [] => true
  | s, (a, b) :: rest => a == s && Nat.ble a b && contiguousFrom (b + 1) rest

/-- Sum of the inclusive lengths of a list of ranges. -/
def rangeLens (rs : List (Nat × Nat)) : Nat :=
  (rs.map (fun p => p.2 + 1 - p.1)).sum

/-- The raw connection estimate of `TurboDL._calculate_connections`
(downloader.py line 232): `beta * log2(1 + file_size_mb / base_size) *
sqrt(speed / 100)` with `beta = 5.6`, `base_size = 1.0` and
`file_size_mb = file_size / (1024 * 1024)`.  Python floats are idealised
as reals. -/
noncomputable def conn_float (file_size speed : ℝ) : ℝ :=
  5.6 * Real.logb 2 (1 + file_size / (1024 * 1024) / 1.0) * Real.sqrt (speed / 100)

/-- Method `TurboDL._calculate_connections` (downloader.py lines 192-235):
`max(2, min(24, ceil(conn_float)))`. -/
noncomputable def calculate_connections (file_size speed : ℝ) : ℤ :=
  max 2 (min 24 ⌈conn_float file_size speed⌉)

/-- The connection-count formula as the specification words it:
`clamp(ceil(5.6 · log2(1 + bytes / 2^20) · sqrt(V / 100)), 2, 24)`. -/
noncomputable def connections_spec (file_size speed : ℝ) : ℤ :=
  min 24 (max 2 ⌈5.6 * Real.logb 2 (1 + file_size / 2 ^ 20) * Real.sqrt (speed / 100)⌉)

/-- Value of `calculate_connections` as a natural number, for the planner. -/
noncomputable def calculate_connections_nat (file_size speed : ℝ) : Nat :=
  (calculate_connections file_size speed).toNat

/-- The `self._max_connections` field of a `TurboDL` instance: either the
literal `auto` or a concrete integer. -/
inductive MaxConnections where
  | auto
  | num (n : Nat)
  deriving Repr, DecidableEq

/-- Method `TurboDL._get_chunk_ranges` together with its effect on
`self._max_connections` (downloader.py lines 255-258): when the field is
`auto` it is overwritten with `self._calculate_connections(total_size,
self._connection_speed)`, and the (possibly updated) field is used as
the connection count.  Returns the ranges and the new field value. -/
noncomputable def get_chunk_ranges_st (mc : MaxConnections) (total_size : Nat)
    (connection_speed : ℝ) : List (Nat × Nat) × MaxConnections :=
  let n : Nat :=
    match mc with
    | .auto => calculate_connections_nat (total_size : ℝ) connection_speed
    | .num k => k
  (get_chunk_ranges total_size n, .num n)

/-- Result of the HEAD metadata probe `fetch_file_info` (functions.py
lines 17-74): the request can fail fatally (`OnlineRequestError`), fail
softly (`RemoteProtocolError` → `None`, treated as unknown info), or
return a known content length. -/
inductive ProbeResult where
  | failed
  | unknown
  | known (size : Nat)
  deriving Repr, DecidableEq

/-- Outcome of the transfer phase inside the `try` block of
`TurboDL.download` (downloader.py lines 608-679): it finishes, the user
interrupts it (`KeyboardInterrupt`), or some worker/step raises. -/
inductive FetchOutcome where
  | ok
  | interrupted
  | failed
  deriving Repr, DecidableEq

/-- Externally observable I/O events of one `TurboDL.download` call:
the metadata HEAD probe, creation of the output file (touch/truncate),
and content GET requests. -/
inductive Ev where
  | headReq
  | fileCreate
  | getReq
  deriving Repr, DecidableEq

/-- How one `TurboDL.download` call terminates. -/
inductive DlResult where
  | success
  | invalidArg
  | requestErr
  | insufficientSpace
  | downloadErr
  | hashErr
  | cancelled
  deriving Repr, DecidableEq

/-- Abstract environment of one `TurboDL.download` call: everything the
outside world decides (argument validity, probe result, the free-space
check, how the transfer goes, the requested and actual digests). -/
structure Env where
  urlNonEmpty : Bool
  ramBufArgOk : Bool
  probe : ProbeResult
  spaceOk : Bool
  outcome : FetchOutcome
  expectedHash : Option Nat
  actualHash : Nat
  deriving Repr, DecidableEq

/-- Final state of one `TurboDL.download` call: how it terminated,
whether a file exists at the resolved output path afterwards, whether
`self.output_path` is set, and the ordered trace of I/O events. -/
structure DlState where
  result : DlResult
  fileExists : Bool
  outputPathSet : Bool
  trace : List Ev
  deriving Repr, DecidableEq

/-- The `try` block of `TurboDL.download` from output-file creation
onward (downloader.py lines 608-697): the file is created (touch or
truncate), `self.output_path` is set, the content requests are issued;
`KeyboardInterrupt` unlinks the file and clears `output_path` without an
error; any other exception becomes `DownloadError` WITHOUT removing the
file; on completion the optional hash check deletes the file and raises
`HashVerificationError` on mismatch. -/
def transferPhase (e : Env) (tr : List Ev) : DlState :=
  let tr := tr ++ [Ev.fileCreate, Ev.getReq]
  match e.outcome with
  | .interrupted => ⟨.cancelled, false, false, tr⟩
  | .failed => ⟨.downloadErr, true, true, tr⟩
  | .ok =>
    match e.expectedHash with
    | none => ⟨.success, true, true, tr⟩
    | some h =>
      if e.actualHash = h then ⟨.success, true, true, tr⟩
      else ⟨.hashErr, false, false, tr⟩

/-- Control flow of `TurboDL.download` (downloader.py lines 523-697):
argument checks, then the metadata probe (`fetch_file_info`, a network
HEAD request), then — only when the probe returned a known size — the
free-space check raising `InsufficientSpaceError`, then the transfer
phase. -/
def TurboDL.download (e : Env) : DlState :=
  if e.urlNonEmpty = false then ⟨.invalidArg, false, false, []⟩
  else if e.ramBufArgOk = false then ⟨.invalidArg, false, false, []⟩
  else
    match e.probe with
    | .failed => ⟨.requestErr, false, false, [Ev.headReq]⟩
    | .unknown => transferPhase e [Ev.headReq]
    | .known _ =>
      if e.spaceOk = false then ⟨.insufficientSpace, false, false, [Ev.headReq]⟩
      else transferPhase e [Ev.headReq]

lemma ceil_div_pos (t n : Nat) (ht : 1 ≤ t) (hn : 1 ≤ n) : 1 ≤ ceil_div t n := by
  unfold ceil_div
  rw [Nat.le_div_iff_mul_le hn]
  omega

lemma buildRanges_spec (fuel : Nat) :
    ∀ start total chunkSize, 1 ≤ chunkSize → total ≤ fuel →
      contiguousFrom start (buildRanges fuel chunkSize start total) = true ∧
      rangeLens (buildRanges fuel chunkSize start total) = total := by
  induction fuel with
  | zero =>
    intro start total chunkSize _ hf
    have h0 : total = 0 := Nat.le_zero.mp hf
    subst h0
    simp [buildRanges, contiguousFrom, rangeLens]
  | succ n ih =>
    intro start total chunkSize hc hf
    by_cases h0 : total = 0
    · subst h0
      simp [buildRanges, contiguousFrom, rangeLens]
    · have h1 : 1 ≤ total := Nat.one_le_iff_ne_zero.mpr h0
      have hcpos : 1 ≤ min chunkSize total := le_min hc h1
      have hcle : min chunkSize total ≤ total := min_le_right _ _
      obtain ⟨ih1, ih2⟩ := ih (start + min chunkSize total) (total - min chunkSize total)
        chunkSize hc (by omega)
      simp only [buildRanges, if_neg h0]
      constructor
      · simp only [contiguousFrom, Bool.and_eq_true, beq_iff_eq, Nat.ble_eq]
        refine ⟨⟨trivial, by omega⟩, ?_⟩
        have he : start + min chunkSize total - 1 + 1 = start + min chunkSize total := by omega
        rw [he]
        exact ih1
      · simp only [rangeLens, List.map_cons, List.sum_cons]
        simp only [rangeLens] at ih2
        omega

/-- C2: for every `total_size ≥ 1` and connection count `≥ 1`, the ranges
produced by `_get_chunk_ranges` tile `[0, total_size - 1]`: they are
ordered, contiguous (each starts one past the previous end), pairwise
non-overlapping, the first starts at 0, and their inclusive lengths sum
to `total_size`. -/
theorem range_plan_coverage (total_size maxConn : Nat)
    (ht : 1 ≤ total_size) (hn : 1 ≤ maxConn) :
    contiguousFrom 0 (get_chunk_ranges total_size maxConn) = true ∧
    rangeLens (get_chunk_ranges total_size maxConn) = total_size :=
  buildRanges_spec total_size 0 total_size (ceil_div total_size maxConn)
    (ceil_div_pos total_size maxConn ht hn) le_rfl

/-- Witness for `range_plan_coverage` at `total_size = 10`,
`maxConn = 3`. -/
theorem range_plan_coverage_witness :
    contiguousFrom 0 (get_chunk_ranges 10 3) = true ∧
    rangeLens (get_chunk_ranges 10 3) = 10 :=
  range_plan_coverage 10 3 (by decide) (by decide)

/-- C3: the guard in `_get_chunk_ranges` (downloader.py line 252) tests
`total_size is None`, which the integer 0 never satisfies, so an actual
zero `total_size` falls through to the `while` loop and yields the EMPTY
list — not the degenerate `[(0, 0)]` its own comment (line 251) and the
spec promise.  Only a literal `None` input reaches the degenerate
branch. -/
theorem zero_size_returns_empty :
    get_chunk_ranges 0 1 = [] ∧ get_chunk_ranges 0 24 = [] ∧
    get_chunk_ranges_opt (some 0) 24 = [] ∧
    get_chunk_ranges_opt none 24 = [(0, 0)] := by decide

@[simp] lemma sumLens_nil : sumLens [] = 0 := rfl

@[simp] lemma sumLens_cons (d : List Nat) (ds : List (List Nat)) :
    sumLens (d :: ds) = d.length + sumLens ds := by
  simp [sumLens]

lemma write_refuse (b : ChunkBuffer) (data : List Nat) (total : Nat)
    (h : specRefuses b data total) :
    b.write data total = (none, b) := by
  unfold specRefuses at h
  unfold ChunkBuffer.write
  split_ifs <;> first | rfl | tauto

lemma write_accept (b : ChunkBuffer) (data : List Nat) (total : Nat)
    (h1 : (b.current_size : ℚ) + data.length ≤ b.max_buffer_size)
    (h2 : (b.total_buffered : ℚ) + data.length ≤ b.max_buffer_size)
    (h3 : b.total_buffered + data.length ≤ total) :
    ((b.write data total).1.getD [] ++ (b.write data total).2.current_buffer
      = b.current_buffer ++ data)
    ∧ (b.write data total).2.total_buffered = b.total_buffered + data.length
    ∧ (b.write data total).2.current_size ≤ b.current_size + data.length
    ∧ (b.write data total).2.max_buffer_size = b.max_buffer_size := by
  unfold ChunkBuffer.write
  rw [if_neg (not_lt.mpr h1), if_neg (not_lt.mpr h2), if_neg (not_lt.mpr h3)]
  dsimp only
  split_ifs with h4 <;> simp

lemma write_max_eq (b : ChunkBuffer) (data : List Nat) (total : Nat) :
    (b.write data total).2.max_buffer_size = b.max_buffer_size := by
  unfold ChunkBuffer.write
  dsimp only
  split_ifs <;> rfl

lemma write_tb_mono (b : ChunkBuffer) (data : List Nat) (total : Nat) :
    b.total_buffered ≤ (b.write data total).2.total_buffered := by
  unfold ChunkBuffer.write
  dsimp only
  split_ifs <;> simp

lemma write_flush_tb (b : ChunkBuffer) (data : List Nat) (total : Nat)
    (h : (b.write data total).1.isSome = true) :
    (b.write data total).2.total_buffered = b.total_buffered + data.length := by
  unfold ChunkBuffer.write at h ⊢
  dsimp only at h ⊢
  split_ifs at h ⊢ <;> simp_all

lemma write_ceiling (b : ChunkBuffer) (data : List Nat) (total : Nat)
    (h : (b.total_buffered : ℚ) ≤ b.max_buffer_size) :
    ((b.write data total).2.total_buffered : ℚ) ≤ (b.write data total).2.max_buffer_size := by
  unfold ChunkBuffer.write
  dsimp only
  split_ifs with h1 h2 h3 h4 <;> dsimp only <;> try exact h
  all_goals (push_cast; linarith [not_lt.mp h2])

lemma writeAll_snd (b : ChunkBuffer) (total : Nat) (d : List Nat) (ds : List (List Nat)) :
    (b.writeAll total (d :: ds)).2 = ((b.write d total).2.writeAll total ds).2 := rfl

lemma writeAll_join_cons (b : ChunkBuffer) (total : Nat) (d : List Nat)
    (ds : List (List Nat)) :
    (b.writeAll total (d :: ds)).1.flatten
      = (b.write d total).1.getD [] ++ ((b.write d total).2.writeAll total ds).1.flatten := by
  rcases hw : (b.write d total).1 with _ | c <;> simp [ChunkBuffer.writeAll, hw]

lemma writeAll_roundtrip (ds : List (List Nat)) :
    ∀ b : ChunkBuffer, ∀ total : Nat,
      b.current_size ≤ b.total_buffered →
      (b.total_buffered : ℚ) + sumLens ds ≤ b.max_buffer_size →
      b.total_buffered + sumLens ds ≤ total →
      ((b.writeAll total ds).1.flatten ++ (b.writeAll total ds).2.current_buffer
        = b.current_buffer ++ ds.flatten)
      ∧ (b.writeAll total ds).2.total_buffered = b.total_buffered + sumLens ds
      ∧ (b.writeAll total ds).2.current_size ≤ (b.writeAll total ds).2.total_buffered := by
  induction ds with
  | nil =>
    intro b total hcs _ _
    refine ⟨by simp [ChunkBuffer.writeAll], by simp [ChunkBuffer.writeAll], ?_⟩
    simpa [ChunkBuffer.writeAll] using hcs
  | cons d ds ih =>
    intro b total hcs hq ht
    have hds0 : (0 : ℚ) ≤ (sumLens ds : ℚ) := by positivity
    have hcast : (sumLens (d :: ds) : ℚ) = (d.length : ℚ) + sumLens ds := by
      push_cast [sumLens_cons]
      ring
    have e2 : (b.total_buffered : ℚ) + d.length ≤ b.max_buffer_size := by
      rw [hcast] at hq
      linarith
    have e1 : (b.current_size : ℚ) + d.length ≤ b.max_buffer_size := by
      have hc : (b.current_size : ℚ) ≤ (b.total_buffered : ℚ) := by exact_mod_cast hcs
      linarith
    have e3 : b.total_buffered + d.length ≤ total := by
      rw [sumLens_cons] at ht
      omega
    obtain ⟨w1, w2, w3, w4⟩ := write_accept b d total e1 e2 e3
    set b' := (b.write d total).2 with hb'
    have hcs' : b'.current_size ≤ b'.total_buffered := by omega
    have hq' : (b'.total_buffered : ℚ) + sumLens ds ≤ b'.max_buffer_size := by
      rw [w2, w4]
      rw [hcast] at hq
      push_cast
      linarith
    have ht' : b'.total_buffered + sumLens ds ≤ total := by
      rw [w2]
      rw [sumLens_cons] at ht
      omega
    obtain ⟨ih1, ih2, ih3⟩ := ih b' total hcs' hq' ht'
    refine ⟨?_, ?_, ?_⟩
    · rw [writeAll_join_cons, writeAll_snd]
      calc (b.write d total).1.getD [] ++ (b'.writeAll total ds).1.flatten
            ++ (b'.writeAll total ds).2.current_buffer
          = (b.write d total).1.getD [] ++ ((b'.writeAll total ds).1.flatten
            ++ (b'.writeAll total ds).2.current_buffer) := by rw [List.append_assoc]
        _ = (b.write d total).1.getD [] ++ (b'.current_buffer ++ ds.flatten) := by rw [ih1]
        _ = ((b.write d total).1.getD [] ++ b'.current_buffer) ++ ds.flatten := by
            rw [List.append_assoc]
        _ = (b.current_buffer ++ d) ++ ds.flatten := by rw [w1]
        _ = b.current_buffer ++ (d :: ds).flatten := by simp
    · rw [writeAll_snd, ih2, w2, sumLens_cons]
      omega
    · rw [writeAll_snd]
      exact ih3

lemma writeAll_ceiling (ds : List (List Nat)) :
    ∀ b : ChunkBuffer, ∀ total : Nat, (b.total_buffered : ℚ) ≤ b.max_buffer_size →
      (((b.writeAll total ds).2.total_buffered : ℚ) ≤ (b.writeAll total ds).2.max_buffer_size)
      ∧ (b.writeAll total ds).2.max_buffer_size = b.max_buffer_size := by
  induction ds with
  | nil => intro b total h; exact ⟨h, rfl⟩
  | cons d ds ih =>
    intro b total h
    rw [writeAll_snd]
    obtain ⟨ih1, ih2⟩ := ih (b.write d total).2 total (write_ceiling b d total h)
    exact ⟨ih1, ih2.trans (write_max_eq b d total)⟩

/-- C5: a `write` call refuses the incoming slice — returning `None` with
the buffer state unchanged — exactly when accepting it would push the
staged size past the buffer's capacity, push the lifetime total past the
dynamic memory ceiling, or exceed the bytes still owed against the size
parameter; and that ceiling is fixed at creation as
`min(configured_max_bytes, 0.30 × available memory)`. -/
theorem chunkbuffer_refusal (chunk_size_bytes max_buffer_bytes availMemory : Nat)
    (b : ChunkBuffer) (data : List Nat) (total : Nat) (hlen : 0 < data.length) :
    (ChunkBuffer.init chunk_size_bytes max_buffer_bytes availMemory).max_buffer_size
      = min (max_buffer_bytes : ℚ) ((availMemory : ℚ) * (30 / 100))
    ∧ (b.write data total = (none, b) ↔ specRefuses b data total) := by
  refine ⟨rfl, ⟨?_, write_refuse b data total⟩⟩
  intro heq
  by_contra hns
  unfold specRefuses at hns
  push_neg at hns
  obtain ⟨hn1, hn2, hn3⟩ := hns
  obtain ⟨_, w2, _, _⟩ := write_accept b data total hn1 hn2 hn3
  have h2 := congrArg (fun p : Option (List Nat) × ChunkBuffer => p.2.total_buffered) heq
  dsimp only at h2
  omega

/-- Witness for `chunkbuffer_refusal`: a buffer with ceiling
`min(10, 3) = 3` refuses a 4-byte slice. -/
theorem chunkbuffer_refusal_witness :
    (ChunkBuffer.init 4 10 10).max_buffer_size = min (10 : ℚ) ((10 : ℚ) * (30 / 100))
    ∧ ((ChunkBuffer.init 4 10 10).write [0, 1, 2, 3] 100
        = (none, ChunkBuffer.init 4 10 10)
      ↔ specRefuses (ChunkBuffer.init 4 10 10) [0, 1, 2, 3] 100) :=
  chunkbuffer_refusal 4 10 10 (ChunkBuffer.init 4 10 10) [0, 1, 2, 3] 100 (by decide)

/-- C9: `total_buffered` is non-decreasing across `write` calls, a flush
does not reset it (it still grows by the accepted length), it never
exceeds the creation-time ceiling `max_buffer_size`, any write offered
beyond the ceiling is refused with the state unchanged, and over a whole
lifetime starting from a fresh buffer the accepted total stays at or
below the ceiling. -/
theorem chunkbuffer_lifetime_ceiling (chunk_size_bytes max_buffer_bytes availMemory : Nat)
    (b : ChunkBuffer) (data : List Nat) (total : Nat) (ds : List (List Nat)) :
    b.total_buffered ≤ (b.write data total).2.total_buffered
    ∧ ((b.write data total).1.isSome = true →
        (b.write data total).2.total_buffered = b.total_buffered + data.length)
    ∧ ((b.total_buffered : ℚ) ≤ b.max_buffer_size →
        ((b.write data total).2.total_buffered : ℚ) ≤ b.max_buffer_size)
    ∧ ((b.total_buffered : ℚ) + data.length > b.max_buffer_size →
        b.write data total = (none, b))
    ∧ ((((ChunkBuffer.init chunk_size_bytes max_buffer_bytes availMemory).writeAll
          total ds).2.total_buffered : ℚ)
        ≤ (ChunkBuffer.init chunk_size_bytes max_buffer_bytes availMemory).max_buffer_size) := by
  refine ⟨write_tb_mono b data total, write_flush_tb b data total, ?_, ?_, ?_⟩
  · intro h
    have hc := write_ceiling b data total h
    rwa [write_max_eq] at hc
  · intro h
    exact write_refuse b data total (Or.inr (Or.inl h))
  · have h0 : (((ChunkBuffer.init chunk_size_bytes max_buffer_bytes
        availMemory).total_buffered : ℚ)
        ≤ (ChunkBuffer.init chunk_size_bytes max_buffer_bytes availMemory).max_buffer_size) := by
      show ((0 : Nat) : ℚ) ≤ min (max_buffer_bytes : ℚ) ((availMemory : ℚ) * (30 / 100))
      refine le_min (by positivity) (by positivity)
    obtain ⟨h1, h2⟩ := writeAll_ceiling ds
      (ChunkBuffer.init chunk_size_bytes max_buffer_bytes availMemory) total h0
    rwa [h2] at h1

/-- Witness for `chunkbuffer_lifetime_ceiling`: a fresh buffer with
ceiling `min(20, 3) = 3` refuses a 4-byte slice outright. -/
theorem chunkbuffer_lifetime_ceiling_witness :
    (ChunkBuffer.init 4 20 10).write [1, 2, 3, 4] 100
      = (none, ChunkBuffer.init 4 20 10) :=
  (chunkbuffer_lifetime_ceiling 4 20 10 (ChunkBuffer.init 4 20 10)
      [1, 2, 3, 4] 100 []).2.2.2.1 (by norm_num [ChunkBuffer.init, min_def])

/-- C1 counterexample: with `0.30 × available memory = 3` bytes the
ceiling is 3, so for a 4-byte transfer split as two 2-byte reads the
second `write` is refused (returning `None`, nothing staged) and its
bytes are silently dropped: the flush blocks plus the final drain yield
only the first two bytes, not the whole input, even though the total
written length equals the size parameter. -/
theorem chunkbuffer_roundtrip_counterexample :
    sumLens [[0, 1], [2, 3]] = 4
    ∧ (((ChunkBuffer.init (256 * 1024 ^ 2) (1024 ^ 3) 10).writeAll 4
          [[0, 1], [2, 3]]).1.flatten
        ++ ((ChunkBuffer.init (256 * 1024 ^ 2) (1024 ^ 3) 10).writeAll 4
          [[0, 1], [2, 3]]).2.current_buffer)
      ≠ [[0, 1], [2, 3]].flatten := by
  refine ⟨by decide, ?_⟩
  norm_num [ChunkBuffer.init, min_def, ChunkBuffer.writeAll, ChunkBuffer.write]
  decide

/-- C1 (amended): for every sequence of `write` calls to a single fresh
`ChunkBuffer` whose total length equals the range size, PROVIDED the
range size does not exceed the buffer's memory ceiling `max_buffer_size`
(so no write is refused), the concatenation of all flush blocks returned
by `write` followed by the final explicit drain of the still-staged bytes
equals the concatenation of the inputs, with no byte duplicated or
dropped, regardless of how the input is split across calls. -/
theorem chunkbuffer_roundtrip (chunk_size_bytes max_buffer_bytes availMemory total : Nat)
    (ds : List (List Nat)) (hsum : sumLens ds = total)
    (hfit : (total : ℚ)
      ≤ (ChunkBuffer.init chunk_size_bytes max_buffer_bytes availMemory).max_buffer_size) :
    (((ChunkBuffer.init chunk_size_bytes max_buffer_bytes availMemory).writeAll
        total ds).1.flatten
      ++ ((ChunkBuffer.init chunk_size_bytes max_buffer_bytes availMemory).writeAll
        total ds).2.current_buffer)
    = ds.flatten := by
  have h := writeAll_roundtrip ds
    (ChunkBuffer.init chunk_size_bytes max_buffer_bytes availMemory) total
    le_rfl
    (by show ((0 : Nat) : ℚ) + (sumLens ds : ℚ) ≤ _
        rw [hsum]
        simpa using hfit)
    (by show 0 + sumLens ds ≤ total
        omega)
  simpa [ChunkBuffer.init] using h.1

/-- Witness for `chunkbuffer_roundtrip`: flush threshold 2, ceiling
`min(100, 30) = 30`, input `[1, 2]`, `[3]` of total length 3. -/
theorem chunkbuffer_roundtrip_witness :
    (((ChunkBuffer.init 2 100 100).writeAll 3 [[1, 2], [3]]).1.flatten
      ++ ((ChunkBuffer.init 2 100 100).writeAll 3 [[1, 2], [3]]).2.current_buffer)
    = [[1, 2], [3]].flatten :=
  chunkbuffer_roundtrip 2 100 100 3 [[1, 2], [3]] (by decide)
    (by norm_num [ChunkBuffer.init, min_def])

lemma transferPhase_fileExists (url ram : Bool) (probe : ProbeResult) (space : Bool)
    (outcome : FetchOutcome) (eh : Option Nat) (ah : Nat) (tr : List Ev) :
    (transferPhase ⟨url, ram, probe, space, outcome, eh, ah⟩ tr).fileExists = true ↔
      ((transferPhase ⟨url, ram, probe, space, outcome, eh, ah⟩ tr).result = .success
        ∨ (transferPhase ⟨url, ram, probe, space, outcome, eh, ah⟩ tr).result = .downloadErr) := by
  unfold transferPhase
  cases outcome <;> rcases eh with _ | h <;> try simp
  by_cases hah : ah = h <;> simp [hah]

lemma transferPhase_result_ne_space (url ram : Bool) (probe : ProbeResult) (space : Bool)
    (outcome : FetchOutcome) (eh : Option Nat) (ah : Nat) (tr : List Ev) :
    (transferPhase ⟨url, ram, probe, space, outcome, eh, ah⟩ tr).result
      ≠ .insufficientSpace := by
  unfold transferPhase
  cases outcome <;> rcases eh with _ | h <;> try simp
  by_cases hah : ah = h <;> simp [hah]

/-- C4 counterexample: a download in which a worker raises — the
invocation terminates with `DownloadError`, a fatal error — leaves the
partial output file on disk: the `except Exception` arm of
`TurboDL.download` (downloader.py lines 676-679) re-raises without
unlinking. -/
theorem failure_atomicity_counterexample :
    (TurboDL.download ⟨true, true, .known 7, true, .failed, none, 0⟩).result
      = .downloadErr
    ∧ (TurboDL.download ⟨true, true, .known 7, true, .failed, none, 0⟩).fileExists
      = true := by decide

/-- C4 (amended): an output file is left at the resolved path exactly
when the download succeeds OR terminates with `DownloadError`; every
other termination — `InvalidArgumentError`, `OnlineRequestError`,
`InsufficientSpaceError`, `HashVerificationError`, and user cancellation
— leaves no file behind.  In particular a fatal `DownloadError` does
leave the partial file on disk, contrary to the original claim. -/
theorem failure_atomicity (e : Env) :
    (TurboDL.download e).fileExists = true ↔
      ((TurboDL.download e).result = .success
        ∨ (TurboDL.download e).result = .downloadErr) := by
  rcases e with ⟨url, ram, probe, space, outcome, eh, ah⟩
  unfold TurboDL.download
  cases url <;> cases ram <;> simp
  all_goals
    rcases probe with _ | _ | sz <;> simp
  · exact transferPhase_fileExists true true .unknown space outcome eh ah [Ev.headReq]
  · cases space <;> simp
    exact transferPhase_fileExists true true (.known sz) true outcome eh ah [Ev.headReq]

/-- C6 counterexample: when the free-space check fails the invocation
does raise `InsufficientSpaceError`, but the metadata HEAD probe — a
network request — has already been issued before the error is raised:
`fetch_file_info` (downloader.py line 589) runs before the space check
(line 604), which needs the probed size. -/
theorem preflight_space_counterexample :
    (TurboDL.download ⟨true, true, .known 1000, false, .ok, none, 0⟩).result
      = .insufficientSpace
    ∧ Ev.headReq ∈ (TurboDL.download ⟨true, true, .known 1000, false, .ok, none, 0⟩).trace := by
  decide

/-- C6 (amended): for every invocation that raises
`InsufficientSpaceError`, the only I/O issued before the error is the
single metadata HEAD probe (whose size the check needs): no content GET
request has been issued and no output file has been created. -/
theorem preflight_space_ordering (e : Env)
    (h : (TurboDL.download e).result = .insufficientSpace) :
    (TurboDL.download e).trace = [Ev.headReq]
    ∧ (TurboDL.download e).fileExists = false
    ∧ Ev.getReq ∉ (TurboDL.download e).trace
    ∧ Ev.fileCreate ∉ (TurboDL.download e).trace := by
  rcases e with ⟨url, ram, probe, space, outcome, eh, ah⟩
  unfold TurboDL.download at h ⊢
  cases url <;> cases ram <;> simp_all
  rcases probe with _ | _ | sz <;> simp_all
  · exact absurd h (transferPhase_result_ne_space true true .unknown space outcome eh ah _)
  · cases space <;> simp_all
    exact absurd h (transferPhase_result_ne_space true true (.known sz) true outcome eh ah _)

/-- Witness for `preflight_space_ordering` at a concrete environment
whose space check fails. -/
theorem preflight_space_ordering_witness :
    (TurboDL.download ⟨true, true, .known 1000, false, .ok, some 3, 3⟩).trace = [Ev.headReq]
    ∧ (TurboDL.download ⟨true, true, .known 1000, false, .ok, some 3, 3⟩).fileExists = false
    ∧ Ev.getReq ∉ (TurboDL.download ⟨true, true, .known 1000, false, .ok, some 3, 3⟩).trace
    ∧ Ev.fileCreate ∉ (TurboDL.download ⟨true, true, .known 1000, false, .ok, some 3, 3⟩).trace :=
  preflight_space_ordering ⟨true, true, .known 1000, false, .ok, some 3, 3⟩ (by decide)

/-- C7: when a download completes and an expected digest was supplied,
a digest mismatch raises `HashVerificationError`, deletes the output
file and clears `output_path`; matching digests raise no error and the
file is kept (downloader.py lines 682-697). -/
theorem hash_verification (e : Env) (h : Nat)
    (hurl : e.urlNonEmpty = true) (hram : e.ramBufArgOk = true)
    (hprobe : e.probe ≠ .failed)
    (hspace : e.spaceOk = true ∨ e.probe = .unknown)
    (hout : e.outcome = .ok) (hexp : e.expectedHash = some h) :
    (e.actualHash ≠ h →
      (TurboDL.download e).result = .hashErr
      ∧ (TurboDL.download e).fileExists = false
      ∧ (TurboDL.download e).outputPathSet = false)
    ∧ (e.actualHash = h →
      (TurboDL.download e).result = .success
      ∧ (TurboDL.download e).fileExists = true) := by
  rcases e with ⟨url, ram, probe, space, outcome, eh, ah⟩
  simp only at hurl hram hprobe hspace hout hexp
  subst hurl hram hout hexp
  unfold TurboDL.download transferPhase
  rcases probe with _ | _ | sz
  · exact absurd rfl hprobe
  · by_cases hah : ah = h <;> simp [hah]
  · rcases hspace with hs | hs
    · subst hs
      by_cases hah : ah = h <;> simp [hah]
    · exact absurd hs (by simp)

/-- Witness for `hash_verification`: expected digest 5, actual digest 7
— the mismatch case. -/
theorem hash_verification_witness :
    (TurboDL.download ⟨true, true, .known 9, true, .ok, some 5, 7⟩).result = .hashErr
    ∧ (TurboDL.download ⟨true, true, .known 9, true, .ok, some 5, 7⟩).fileExists = false
    ∧ (TurboDL.download ⟨true, true, .known 9, true, .ok, some 5, 7⟩).outputPathSet = false :=
  (hash_verification ⟨true, true, .known 9, true, .ok, some 5, 7⟩ 5 rfl rfl
    (by simp) (Or.inl rfl) rfl rfl).1 (by decide)

/-- C8: for every `file_size ≥ 0` and link speed `> 0`, the
auto-computed connection count of `_calculate_connections` equals the
specification formula `clamp(ceil(5.6 · log2(1 + size/2^20) ·
sqrt(V/100)), 2, 24)`, and in particular always lies in `[2, 24]`; as a
pure function of `(file_size, speed)` it is deterministic. -/
theorem connection_sizer_formula (file_size speed : ℝ)
    (_hfs : 0 ≤ file_size) (_hv : 0 < speed) :
    calculate_connections file_size speed = connections_spec file_size speed
    ∧ 2 ≤ calculate_connections file_size speed
    ∧ calculate_connections file_size speed ≤ 24 := by
  have harg : file_size / (1024 * 1024) / 1.0 = file_size / 2 ^ 20 := by norm_num
  unfold calculate_connections connections_spec conn_float
  rw [harg]
  set z := ⌈5.6 * Real.logb 2 (1 + file_size / 2 ^ 20) * Real.sqrt (speed / 100)⌉ with hz
  refine ⟨?_, ?_, ?_⟩ <;> omega

/-- Witness for `connection_sizer_formula` at `file_size = 0`,
`speed = 100`. -/
theorem connection_sizer_formula_witness :
    calculate_connections 0 100 = connections_spec 0 100
    ∧ 2 ≤ calculate_connections 0 100 ∧ calculate_connections 0 100 ≤ 24 :=
  connection_sizer_formula 0 100 le_rfl (by norm_num)

/-- C10: calling the range planner with `_max_connections = auto`
overwrites the field with the concrete integer computed for that file
size and speed; a later call on the same instance (any new total size)
reuses that stored count unchanged instead of recomputing it
(downloader.py lines 255-258). -/
theorem auto_connections_mutation (t1 t2 : Nat) (speed : ℝ) :
    (get_chunk_ranges_st .auto t1 speed).2
      = .num (calculate_connections_nat (t1 : ℝ) speed)
    ∧ (get_chunk_ranges_st (get_chunk_ranges_st .auto t1 speed).2 t2 speed).2
      = (get_chunk_ranges_st .auto t1 speed).2
    ∧ (get_chunk_ranges_st (get_chunk_ranges_st .auto t1 speed).2 t2 speed).1
      = get_chunk_ranges t2 (calculate_connections_nat (t1 : ℝ) speed) :=
  ⟨rfl, rfl, rfl⟩
